import Mathlib

/-!
Shallow embedding of the analytics core of `nba_pace_tracker.py`
(clock parsing, pace calculation, the per-matchup pace-sample series,
and the projection block), together with theorems checking the design
spec's claims against it.

Python floats are modelled as `ℚ` (none of the verified properties
depend on rounding), `None`-able values as `Option`, and the
`try/except` around the clock parser as an `Except`-valued body whose
error case maps to the fallback value.
-/

namespace NbaPace

/-! ### Clock parser (`parse_game_clock`, lines 72-90)

The Python code extracts a remaining-time token with
`re.search(r'Q\d\s+(:?\d{0,2}:?\d{2}(\.\d+)?)', clock_str)`.
That fixed pattern is hand-compiled below into an executable
backtracking matcher: `matchAt` tries one start position (`Q`, a digit,
at least one whitespace, then group 1), and `regexSearch` scans start
positions left to right, which yields Python's leftmost match.  Greedy
choices (`:?`, `\d{0,2}`, `(\.\d+)?`) try the longer alternative first,
as the backtracking engine does. -/

/-- Python's `\s` for the ASCII whitespace characters. -/
def pyIsSpace (c : Char) : Bool :=
  c = ' ' || c = '\t' || c = '\n' || c = '\r' || c = '\x0b' || c = '\x0c'

/-- `(\.\d+)?`, greedy: returns (consumed characters, remainder). -/
def matchFrac : List Char → List Char × List Char
  | '.' :: rest =>
      let ds := rest.takeWhile Char.isDigit
      if ds.isEmpty then ([], '.' :: rest) else ('.' :: ds, rest.drop ds.length)
  | cs => ([], cs)

/-- `\d{2}(\.\d+)?`. -/
def matchDD : List Char → Option (List Char × List Char)
  | a :: b :: rest =>
      if a.isDigit && b.isDigit then
        let (f, r) := matchFrac rest
        some (a :: b :: f, r)
      else none
  | _ => none

/-- `:?\d{2}(\.\d+)?` — the optional colon is tried first (greedy). -/
def matchTail (cs : List Char) : Option (List Char × List Char) :=
  match cs with
  | ':' :: rest =>
      match matchDD rest with
      | some (m, r) => some (':' :: m, r)
      | none => matchDD cs
  | _ => matchDD cs

/-- `\d{0,2}:?\d{2}(\.\d+)?` — two digits, then one, then zero (greedy). -/
def matchBody (cs : List Char) : Option (List Char × List Char) :=
  match cs with
  | a :: b :: rest =>
      if a.isDigit && b.isDigit then
        match matchTail rest with
        | some (m, r) => some (a :: b :: m, r)
        | none =>
          match matchTail (b :: rest) with
          | some (m, r) => some (a :: m, r)
          | none => matchTail cs
      else if a.isDigit then
        match matchTail (b :: rest) with
        | some (m, r) => some (a :: m, r)
        | none => matchTail cs
      else matchTail cs
  | a :: rest =>
      if a.isDigit then
        match matchTail rest with
        | some (m, r) => some (a :: m, r)
        | none => matchTail cs
      else matchTail cs
  | [] => matchTail []

/-- Group 1, `(:?\d{0,2}:?\d{2}(\.\d+)?)` — leading colon tried first. -/
def matchGroup (cs : List Char) : Option (List Char × List Char) :=
  match cs with
  | ':' :: rest =>
      match matchBody rest with
      | some (m, r) => some (':' :: m, r)
      | none => matchBody cs
  | _ => matchBody cs

/-- Try the whole pattern `Q\d\s+(...)` anchored at the head of `cs`,
returning the text of group 1.  `\s+` is max-munch: the group starts
with a colon or a digit, never whitespace, so giving back whitespace
can never rescue a failed match. -/
def matchAt (cs : List Char) : Option (List Char) :=
  match cs with
  | 'Q' :: d :: rest =>
      if d.isDigit then
        let ws := rest.takeWhile pyIsSpace
        if ws.isEmpty then none
        else (matchGroup (rest.drop ws.length)).map Prod.fst
      else none
  | _ => none

/-- `re.search`: leftmost start position that matches wins. -/
def regexSearch : List Char → Option (List Char)
  | [] => none
  | c :: rest =>
      match matchAt (c :: rest) with
      | some m => some m
      | none => regexSearch rest

/-- Python `str.split(":")`. -/
def splitColon : List Char → List (List Char)
  | [] => [[]]
  | ':' :: rest => [] :: splitColon rest
  | c :: rest =>
      match splitColon rest with
      | [] => [[c]]
      | p :: ps => (c :: p) :: ps

/-- Decimal value of a digit string. -/
def digitsToNat (cs : List Char) : ℕ :=
  cs.foldl (fun n c => 10 * n + (c.toNat - 48)) 0

/-- Python `float(s)` on the strings reachable here (digits with an
optional fraction); `float("")` raises, modelled as `Except.error`. -/
def pyFloat (cs : List Char) : Except Unit ℚ :=
  let intPart := cs.takeWhile Char.isDigit
  let rest := cs.drop intPart.length
  match rest with
  | [] => if intPart.isEmpty then .error () else .ok (digitsToNat intPart)
  | '.' :: fr =>
      if fr.all Char.isDigit && (!intPart.isEmpty || !fr.isEmpty) then
        .ok ((digitsToNat intPart : ℚ) + (digitsToNat fr : ℚ) / (10 ^ fr.length))
      else .error ()
  | _ => .error ()

/-- `int(parts[0]) if parts[0] else 0`; `int` on a non-digit string raises. -/
def pyIntOrZero (cs : List Char) : Except Unit ℚ :=
  if cs.isEmpty then .ok 0
  else if cs.all Char.isDigit then .ok (digitsToNat cs) else .error ()

/-- The token-to-`minutes_remaining` conversion of lines 77-86: `12.0`
when the regex finds nothing, else minutes/seconds split on the colon.
The error case is a raised `ValueError` (e.g. `float("")` when the
token is `"::30"`). -/
def minutesRemainingOf (clock : String) : Except Unit ℚ :=
  match regexSearch clock.toList with
  | none => .ok 12
  | some timePart =>
      if timePart.contains ':' then do
        let parts := splitColon timePart
        let mins ← pyIntOrZero (parts.getD 0 [])
        let secs ← pyFloat (parts.getD 1 [])
        .ok (mins + secs / 60)
      else do
        let v ← pyFloat timePart
        .ok (v / 60)

/-- Python `"needle" in hay` (substring containment). -/
def containsSub (needle : List Char) : List Char → Bool
  | [] => needle.isEmpty
  | c :: t => needle.isPrefixOf (c :: t) || containsSub needle t

/-- `parse_game_clock(clock_str, period)`, lines 72-90.  The `try`
body can only raise inside the token conversion, so the
`(period * 12.0) - 6.0` fallback of line 90 is taken exactly on
`minutesRemainingOf`'s error case. -/
def parse_game_clock (clock : String) (period : ℕ) : ℚ :=
  if containsSub "Final".toList clock.toList then (period : ℚ) * 12
  else if containsSub "Half".toList clock.toList then 24
  else if containsSub "Start".toList clock.toList || period = 0 then 0
  else
    match minutesRemainingOf clock with
    | .ok mr => ((period : ℚ) - 1) * 12 + (12 - mr)
    | .error _ => (period : ℚ) * 12 - 6

/-! ### Pace calculator (`calculate_pace`, lines 92-106)

The HTTP fetch and the surrounding `except` (which only catches
fetch/shape failures) are outside the data model; the embedding is the
body applied to an already-parsed boxscore record. -/

/-- One team's counting stats (all non-negative integers). -/
structure TeamStats where
  fieldGoalsAttempted : ℕ
  freeThrowsAttempted : ℕ
  reboundsOffensive : ℕ
  turnovers : ℕ
deriving DecidableEq

/-- `get_poss`: `FGA + 0.44*FTA - OREB + TOV`. -/
def get_poss (s : TeamStats) : ℚ :=
  (s.fieldGoalsAttempted : ℚ) + (44 / 100) * s.freeThrowsAttempted
    - s.reboundsOffensive + s.turnovers

/-- The boxscore fields `calculate_pace` reads. -/
structure GameData where
  homeStats : TeamStats
  awayStats : TeamStats
  period : ℕ
  clockText : String
  homeCode : String
  awayCode : String
  homeScore : ℕ
  awayScore : ℕ

/-- Line 103: `if minutes_elapsed <= 0: minutes_elapsed = 1`. -/
def clamp_minutes (m : ℚ) : ℚ := if m ≤ 0 then 1 else m

/-- Line 104: `pace = (avg_poss / minutes_elapsed) * 48` after the
clamp. -/
def pace_from (avg_poss m : ℚ) : ℚ := (avg_poss / clamp_minutes m) * 48

/-- `calculate_pace`'s returned tuple. -/
structure PaceResult where
  pace : ℚ
  home : String
  away : String
  homeScore : ℕ
  awayScore : ℕ
  period : ℕ
  clock : String
  minutes : ℚ
deriving DecidableEq

/-- `calculate_pace`, lines 94-105 (success path). -/
def calculate_pace (g : GameData) : PaceResult :=
  if g.period = 0 then
    ⟨0, g.homeCode, g.awayCode, 0, 0, 0, g.clockText, 0⟩
  else
    let avg_poss := (get_poss g.homeStats + get_poss g.awayStats) / 2
    let minutes_elapsed := clamp_minutes (parse_game_clock g.clockText g.period)
    ⟨pace_from avg_poss (parse_game_clock g.clockText g.period),
     g.homeCode, g.awayCode, g.homeScore, g.awayScore, g.period,
     g.clockText, minutes_elapsed⟩

/-! ### Per-matchup pace series (lines 136-148) -/

/-- One appended history row. -/
structure PaceSample where
  time : String
  pace : ℚ
  home : String
  away : String
  homeScore : ℕ
  awayScore : ℕ
  clock : String
  elapsed : ℚ
deriving DecidableEq

/-- Lines 138-148: `if not hist or hist[-1]['Time'] != now:
hist.append({...})`. -/
def append_sample (hist : List PaceSample) (s : PaceSample) : List PaceSample :=
  match hist.getLast? with
  | none => hist ++ [s]
  | some l => if l.time ≠ s.time then hist ++ [s] else hist

/-! ### Projection block (`MATH LOGIC`, lines 182-235)

A metric that stays at its `"N/A"` initialisation is `none`; a
computed value `v` (formatted with `f"{v:.1f}"` only for display)
is `some v`. -/

/-- Python truthiness of `dk_total` (`None` and `0.0` are falsy). -/
def truthy (o : Option ℚ) : Bool :=
  match o with
  | none => false
  | some v => decide (v ≠ 0)

/-- The seven metric slots of the block. -/
structure Projections where
  proj_text : Option ℚ
  rich_proj_text : Option ℚ
  proj_remaining_text : Option ℚ
  implied_remaining_text : Option ℚ
  diff_text : Option ℚ
  ppm_text : Option ℚ
  implied_eff : Option ℚ
deriving DecidableEq

/-- Line 205: `remaining_sec = max(0, total_game_sec - elapsed_sec)`
with `total_game_sec = 2880`, for every period. -/
def remaining_sec_of (elapsed_sec : ℚ) : ℚ := max 0 (2880 - elapsed_sec)

/-- Lines 182-235 applied to `latest = df.iloc[-1]` (the last appended
sample), the cached season average, and `dk_total =
live_odds.get(matchup, {}).get('Over', None)`. -/
def compute_projections (latest : PaceSample) (season_avg : ℚ)
    (dk_total : Option ℚ) : Projections :=
  let total_current : ℚ := (latest.homeScore : ℚ) + latest.awayScore
  let elapsed_minutes := latest.elapsed
  let elapsed_sec := elapsed_minutes * 60
  let proj_text : Option ℚ :=
    if truthy dk_total ∧ season_avg > 0 then
      some (dk_total.getD 0 * (latest.pace / season_avg))
    else none
  let rest4 : Option ℚ × Option ℚ × Option ℚ × Option ℚ :=
    if elapsed_sec > 60 then
      let remaining_sec := remaining_sec_of elapsed_sec
      let points_per_sec := total_current / elapsed_sec
      let projected_remaining_points := points_per_sec * remaining_sec
      let final_on_pace := total_current + projected_remaining_points
      if truthy dk_total then
        let implied_remaining := dk_total.getD 0 - total_current
        (some projected_remaining_points, some final_on_pace,
         some implied_remaining,
         some (projected_remaining_points - implied_remaining))
      else
        (some projected_remaining_points, some final_on_pace, none, none)
    else (none, none, none, none)
  let ppm_text : Option ℚ :=
    if elapsed_minutes > 1 / 2 then some (total_current / elapsed_minutes)
    else none
  let implied_eff : Option ℚ :=
    if latest.pace > 0 ∧ truthy dk_total then
      some ((dk_total.getD 0 / season_avg) * 100)
    else none
  ⟨proj_text, rest4.2.1, rest4.1, rest4.2.2.1, rest4.2.2.2,
   ppm_text, implied_eff⟩

/-- The spec's formula for the rich projection, written from the
spec's words for comparison with the code's `rich_proj_text`:
`remainderEdge / (currentPace - medianPace) +
(totalCurrentScore + remainingPointsProjection)`. -/
def richAdjustedProjection_spec (remainderEdge currentPace medianPace
    totalCurrentScore remainingPointsProjection : ℚ) : ℚ :=
  remainderEdge / (currentPace - medianPace)
    + (totalCurrentScore + remainingPointsProjection)

/-! ### Helper lemmas -/

/-- The clamped divisor of line 103 is always positive. -/
theorem clamp_minutes_pos (m : ℚ) : 0 < clamp_minutes m := by
  unfold clamp_minutes
  split_ifs with h
  · norm_num
  · linarith [not_le.mp h]

/-! ### Claim theorems -/

/-- C1 (counterexample): at elapsedMinutes = 1/2 (strictly between 0
and 1) the code divides by 1/2, not by `max(1/2, 1) = 1`: with an
average possession count of 1 the code's pace is 96, the claimed
formula gives 48. -/
theorem C1_counterexample :
    pace_from 1 (1 / 2) = 96 ∧ ((1 : ℚ) / max (1 / 2 : ℚ) 1) * 48 = 48 ∧
    (96 : ℚ) ≠ 48 := by
  refine ⟨?_, ?_, by norm_num⟩
  · norm_num [pace_from, clamp_minutes]
  · norm_num

/-- C1 (amended): the code replaces the divisor by 1 only when
elapsedMinutes ≤ 0 (`if minutes_elapsed <= 0: minutes_elapsed = 1`),
so pace equals `(avg / max(elapsedMinutes, 1)) * 48` exactly when
elapsedMinutes ≤ 0 or elapsedMinutes ≥ 1, while for
0 < elapsedMinutes < 1 the divisor is elapsedMinutes itself. -/
theorem C1_pace_divisor (avg m : ℚ) :
    (m ≤ 0 ∨ 1 ≤ m → pace_from avg m = (avg / max m 1) * 48) ∧
    (0 < m → m < 1 → pace_from avg m = (avg / m) * 48) := by
  constructor
  · rintro (h | h)
    · rw [pace_from, clamp_minutes, if_pos h, max_eq_right (by linarith : m ≤ 1)]
    · by_cases h0 : m ≤ 0
      · rw [pace_from, clamp_minutes, if_pos h0,
          max_eq_right (by linarith : m ≤ 1)]
      · rw [pace_from, clamp_minutes, if_neg h0, max_eq_left h]
  · intro h1 h2
    rw [pace_from, clamp_minutes, if_neg (not_le.mpr h1)]

/-- C1 (witness): concrete instances of both branches. -/
theorem C1_witness :
    pace_from 2 3 = ((2 : ℚ) / max 3 1) * 48 ∧
    pace_from 2 (1 / 2) = ((2 : ℚ) / (1 / 2)) * 48 :=
  ⟨(C1_pace_divisor 2 3).1 (Or.inr (by norm_num)),
   (C1_pace_divisor 2 (1 / 2)).2 (by norm_num) (by norm_num)⟩

/-- C2 (counterexample): `""` contains none of the keywords and yields
no token, yet `parse_game_clock "" 1 = 0`, not `(1*12) - 6 = 6`: on a
failed regex search the code keeps `minutes_remaining = 12.0` and
returns `(period-1)*12`, it does not take the exception fallback. -/
theorem C2_counterexample :
    containsSub "Final".toList "".toList = false ∧
    containsSub "Half".toList "".toList = false ∧
    containsSub "Start".toList "".toList = false ∧
    regexSearch "".toList = none ∧
    parse_game_clock "" 1 = 0 ∧ (0 : ℚ) ≠ (1 : ℚ) * 12 - 6 := by
  refine ⟨rfl, rfl, rfl, rfl, ?_, by norm_num⟩
  have h : parse_game_clock "" 1 = (((1 : ℕ) : ℚ) - 1) * 12 + (12 - 12) := rfl
  rw [h]
  norm_num

/-- C2 (amended): for period ≥ 1 and clockText without "Final",
"Half" or "Start" from which no token is extractable, the parser
returns `(period-1)*12.0` (it treats the quarter as just started);
the `(period*12) - 6.0` fallback of line 90 is taken only when the
token conversion raises, e.g. on `"Q1 ::30"`, whose extracted token
`"::30"` makes `float("")` raise. -/
theorem C2_no_token (clock : String) (period : ℕ) (hp : 1 ≤ period)
    (hF : containsSub "Final".toList clock.toList = false)
    (hH : containsSub "Half".toList clock.toList = false)
    (hS : containsSub "Start".toList clock.toList = false)
    (hR : regexSearch clock.toList = none) :
    parse_game_clock clock period = ((period : ℚ) - 1) * 12 ∧
    parse_game_clock "Q1 ::30" 1 = (1 : ℚ) * 12 - 6 := by
  constructor
  · have hmr : minutesRemainingOf clock = .ok 12 := by
      unfold minutesRemainingOf
      rw [hR]
    have hp0 : ¬ period = 0 := by omega
    unfold parse_game_clock
    rw [hF, hH, hS, hmr]
    simp only [Bool.false_eq_true, if_false, Bool.false_or, decide_eq_true_eq,
      if_neg hp0]
    ring
  · have h : parse_game_clock "Q1 ::30" 1 = ((1 : ℕ) : ℚ) * 12 - 6 := rfl
    rw [h]
    norm_num

/-- C2 (witness): a tokenless clock string in period 2. -/
theorem C2_witness :
    parse_game_clock "tipoff soon" 2 = ((2 : ℚ) - 1) * 12 :=
  (C2_no_token "tipoff soon" 2 (by norm_num) (by decide) (by decide)
    (by decide) (by decide)).1

/-- C8 (counterexample): with non-negative stats FGA=0, FTA=0, OREB=1,
TOV=0 for both teams, period 1 and clock "Q1 11:00" (elapsed 1 minute
> 0), the possession estimates are -1 and the returned pace is -48,
which is not ≥ 0. -/
theorem C8_counterexample :
    (calculate_pace ⟨⟨0, 0, 1, 0⟩, ⟨0, 0, 1, 0⟩, 1, "Q1 11:00",
      "BOS", "NYK", 5, 7⟩).pace = -48 ∧
    ¬ (0 ≤ (calculate_pace ⟨⟨0, 0, 1, 0⟩, ⟨0, 0, 1, 0⟩, 1, "Q1 11:00",
      "BOS", "NYK", 5, 7⟩).pace) := by
  have hclock : parse_game_clock "Q1 11:00" 1 = 1 := by
    have h : parse_game_clock "Q1 11:00" 1 =
        (((1 : ℕ) : ℚ) - 1) * 12 + (12 - (((11 : ℕ) : ℚ) + ((0 : ℕ) : ℚ) / 60)) := rfl
    rw [h]
    norm_num
  have hpace : (calculate_pace ⟨⟨0, 0, 1, 0⟩, ⟨0, 0, 1, 0⟩, 1, "Q1 11:00",
      "BOS", "NYK", 5, 7⟩).pace = -48 := by
    simp only [calculate_pace, pace_from, get_poss, clamp_minutes, hclock]
    norm_num
  exact ⟨hpace, by rw [hpace]; norm_num⟩

/-- C8 (amended): `calculate_pace` returns pace 0 when period = 0, and
a (finite, as every rational is) pace ≥ 0 whenever the summed
possession estimates are non-negative — which OREB in excess of
FGA + 0.44·FTA + TOV can violate; the divisor is always positive, so
no division blow-up occurs, but the sign follows the possession
estimate. -/
theorem C8_pace_sign (g : GameData) :
    (g.period = 0 → (calculate_pace g).pace = 0) ∧
    (0 ≤ get_poss g.homeStats + get_poss g.awayStats →
      0 ≤ (calculate_pace g).pace) := by
  constructor
  · intro h
    rw [calculate_pace, if_pos h]
  · intro h
    unfold calculate_pace
    split_ifs with h0
    · norm_num
    · have hdiv : 0 < clamp_minutes (parse_game_clock g.clockText g.period) :=
        clamp_minutes_pos _
      have havg : (0 : ℚ) ≤ (get_poss g.homeStats + get_poss g.awayStats) / 2 := by
        linarith
      simpa [pace_from] using
        mul_nonneg (div_nonneg havg hdiv.le) (by norm_num : (0 : ℚ) ≤ 48)

/-- C8 (witness): period 0 gives pace 0; ordinary stats give pace ≥ 0. -/
theorem C8_witness :
    (calculate_pace ⟨⟨40, 10, 8, 12⟩, ⟨42, 8, 6, 14⟩, 0, "Start",
      "BOS", "NYK", 0, 0⟩).pace = 0 ∧
    0 ≤ (calculate_pace ⟨⟨40, 10, 8, 12⟩, ⟨42, 8, 6, 14⟩, 2, "Q2 6:00",
      "BOS", "NYK", 55, 60⟩).pace :=
  ⟨(C8_pace_sign _).1 rfl,
   (C8_pace_sign _).2 (by norm_num [get_poss])⟩

/-- C9 (counterexample): the parser's result can be negative: the
token "15:00" in period 1 gives elapsed 12 - 15 = -3. -/
theorem C9_counterexample :
    parse_game_clock "Q1 15:00" 1 = -3 ∧
    ¬ (0 ≤ parse_game_clock "Q1 15:00" 1) := by
  have h : parse_game_clock "Q1 15:00" 1 =
      (((1 : ℕ) : ℚ) - 1) * 12 + (12 - (((15 : ℕ) : ℚ) + ((0 : ℕ) : ℚ) / 60)) := rfl
  rw [h]
  norm_num

/-- C9 (amended): the parser is total (every exception is caught and
mapped to the fallback), and its result is ≥ 0 whenever any
successfully extracted remaining-time value is at most 12·period
minutes; a token denoting more remaining time than the whole game so
far (e.g. "15:00" in Q1) yields a negative result. -/
theorem C9_clock_nonneg (clock : String) (period : ℕ)
    (h : ∀ r, minutesRemainingOf clock = .ok r → r ≤ 12 * period) :
    0 ≤ parse_game_clock clock period := by
  unfold parse_game_clock
  split_ifs with h1 h2 h3
  · positivity
  · norm_num
  · norm_num
  · have hp : 1 ≤ period := by
      rcases Nat.eq_zero_or_pos period with h0 | h0
      · exact absurd (by simp [h0]) h3
      · exact h0
    have hp' : (1 : ℚ) ≤ (period : ℚ) := by exact_mod_cast hp
    cases hmr : minutesRemainingOf clock with
    | ok r =>
        have hr := h r hmr
        dsimp only
        linarith
    | error e =>
        dsimp only
        linarith

/-- C9 (witness): a well-formed clock in period 4. -/
theorem C9_witness : 0 ≤ parse_game_clock "Q4 9:04" 4 :=
  C9_clock_nonneg "Q4 9:04" 4 (by
    intro r hr
    rw [show minutesRemainingOf "Q4 9:04" =
      Except.ok (((9 : ℕ) : ℚ) + ((4 : ℕ) : ℚ) / 60) from rfl] at hr
    cases hr
    norm_num)

/-- A first-quarter snapshot sample: pace 100, score 30-30, elapsed 2
minutes. -/
def latestQ1 : PaceSample :=
  ⟨"19:12:00", 100, "BOS", "NYK", 30, 30, "Q1 10:00", 2⟩

/-- An overtime snapshot sample: score 60-60, elapsed 50 minutes
(period 5 territory, past the 48-minute regulation horizon). -/
def latestOT : PaceSample :=
  ⟨"21:30:00", 95, "BOS", "NYK", 60, 60, "OT2 2:00", 50⟩

/-- C3 (counterexample): with odds total 220, pace 100, median 98
(so |pace - median| = 2 > 0.1), score 30+30 and elapsed 2 min, the
code's "Rich Proj" is 60 + 1380 = 1440, whereas the claimed formula
`remainderEdge / (pace - median) + (total + remainingProj)` =
1220/2 + 1440 = 2050. -/
theorem C3_counterexample :
    (compute_projections latestQ1 (199 / 2) (some 220)).rich_proj_text = some 1440 ∧
    (compute_projections latestQ1 (199 / 2) (some 220)).diff_text = some 1220 ∧
    |latestQ1.pace - 98| > 1 / 10 ∧
    richAdjustedProjection_spec 1220 latestQ1.pace 98 (30 + 30) 1380 = 2050 ∧
    (1440 : ℚ) ≠ 2050 := by
  refine ⟨?_, ?_, ?_, ?_, by norm_num⟩
  · norm_num [compute_projections, latestQ1, truthy, remaining_sec_of, max_def]
  · norm_num [compute_projections, latestQ1, truthy, remaining_sec_of, max_def]
  · norm_num [latestQ1]
  · norm_num [richAdjustedProjection_spec, latestQ1]

/-- C3 (amended): the code's `rich_proj_text` ("The Rich Proj") is
`totalCurrentScore + remainingPointsProjection` whenever
elapsedSeconds > 60, for every odds input and independent of any
median pace — it performs no division and does not require the odds
total. -/
theorem C3_rich_projection (latest : PaceSample) (season_avg : ℚ)
    (dk_total : Option ℚ) (h : latest.elapsed * 60 > 60) :
    (compute_projections latest season_avg dk_total).rich_proj_text =
      some (((latest.homeScore : ℚ) + latest.awayScore) +
        (((latest.homeScore : ℚ) + latest.awayScore) / (latest.elapsed * 60)) *
          remaining_sec_of (latest.elapsed * 60)) := by
  simp only [compute_projections]
  rw [if_pos h]
  by_cases ht : truthy dk_total = true
  · rw [if_pos ht]
  · rw [if_neg ht]

/-- C3 (witness): the amended statement at the concrete Q1 sample. -/
theorem C3_witness :
    (compute_projections latestQ1 (199 / 2) (some 220)).rich_proj_text =
      some (((latestQ1.homeScore : ℚ) + latestQ1.awayScore) +
        (((latestQ1.homeScore : ℚ) + latestQ1.awayScore) / (latestQ1.elapsed * 60)) *
          remaining_sec_of (latestQ1.elapsed * 60)) :=
  C3_rich_projection latestQ1 (199 / 2) (some 220) (by norm_num [latestQ1])

/-- C4 (counterexample): in an overtime scenario (period 5, elapsed
50 min = 3000 s), the code's remaining seconds are
max(0, 2880 - 3000) = 0 and the projected remaining points are 0,
whereas the claimed horizon 5*12*60 - 3000 = 600 s would give
(120/3000)*600 = 24. -/
theorem C4_counterexample :
    (compute_projections latestOT (199 / 2) (some 220)).proj_remaining_text = some 0 ∧
    max 0 ((5 * 12 * 60 : ℚ) - 50 * 60) = 600 ∧
    (((60 : ℚ) + 60) / (50 * 60)) * 600 = 24 ∧ (0 : ℚ) ≠ 24 := by
  refine ⟨?_, ?_, by norm_num, by norm_num⟩
  · norm_num [compute_projections, latestOT, truthy, remaining_sec_of, max_def]
  · norm_num [max_def]

/-- C4 (amended): the remaining seconds are always
`max(0, 2880 - elapsedMinutes*60)` — the block never reads the period,
so the horizon is the fixed 48-minute regulation game and never
extends beyond 2880 seconds, also in overtime. -/
theorem C4_remaining_horizon (latest : PaceSample) (season_avg : ℚ)
    (dk_total : Option ℚ) (h : latest.elapsed * 60 > 60) :
    (compute_projections latest season_avg dk_total).proj_remaining_text =
      some ((((latest.homeScore : ℚ) + latest.awayScore) / (latest.elapsed * 60)) *
        max 0 (2880 - latest.elapsed * 60)) ∧
    remaining_sec_of (latest.elapsed * 60) ≤ 2880 := by
  constructor
  · simp only [compute_projections, remaining_sec_of]
    rw [if_pos h]
    by_cases ht : truthy dk_total = true
    · rw [if_pos ht]
    · rw [if_neg ht]
  · exact max_le (by norm_num) (by linarith)

/-- C4 (witness): the amended statement at the overtime sample. -/
theorem C4_witness :
    (compute_projections latestOT (199 / 2) (some 220)).proj_remaining_text =
      some ((((latestOT.homeScore : ℚ) + latestOT.awayScore) / (latestOT.elapsed * 60)) *
        max 0 (2880 - latestOT.elapsed * 60)) ∧
    remaining_sec_of (latestOT.elapsed * 60) ≤ 2880 :=
  C4_remaining_horizon latestOT (199 / 2) (some 220) (by norm_num [latestOT])

/-- C5 (counterexample): with the odds total absent the code still
computes the "Rich Proj": at the Q1 sample it is `some 1440`, not
"unavailable" as the claim states. -/
theorem C5_counterexample :
    (compute_projections latestQ1 (199 / 2) none).rich_proj_text = some 1440 ∧
    (compute_projections latestQ1 (199 / 2) none).rich_proj_text ≠ none := by
  have h1 : (compute_projections latestQ1 (199 / 2) none).rich_proj_text =
      some 1440 := by
    norm_num [compute_projections, latestQ1, truthy, remaining_sec_of, max_def]
  exact ⟨h1, by rw [h1]; simp⟩

/-- C5 (amended): with the odds total absent, `paceAdjustedProjection`,
`impliedRemainingPoints`, `remainderEdge` and `impliedEfficiency` are
"N/A", while `remainingPointsProjection`, the rich projection AND
`pointsPerMinute` are still computed whenever their elapsed-time
preconditions hold (the rich projection is odds-independent in the
code, contrary to the claim). -/
theorem C5_missing_odds (latest : PaceSample) (season_avg : ℚ) :
    (compute_projections latest season_avg none).proj_text = none ∧
    (compute_projections latest season_avg none).implied_remaining_text = none ∧
    (compute_projections latest season_avg none).diff_text = none ∧
    (compute_projections latest season_avg none).implied_eff = none ∧
    (latest.elapsed * 60 > 60 →
      (compute_projections latest season_avg none).proj_remaining_text ≠ none ∧
      (compute_projections latest season_avg none).rich_proj_text ≠ none) ∧
    (latest.elapsed > 1 / 2 →
      (compute_projections latest season_avg none).ppm_text ≠ none) := by
  have htf : ¬ truthy none = true := Bool.false_ne_true
  refine ⟨?_, ?_, ?_, ?_, fun h => ⟨?_, ?_⟩, fun h => ?_⟩
  · simp only [compute_projections]
    rw [if_neg (by rintro ⟨h1, -⟩; exact htf h1)]
  · simp only [compute_projections]
    by_cases he : latest.elapsed * 60 > 60
    · rw [if_pos he, if_neg htf]
    · rw [if_neg he]
  · simp only [compute_projections]
    by_cases he : latest.elapsed * 60 > 60
    · rw [if_pos he, if_neg htf]
    · rw [if_neg he]
  · simp only [compute_projections]
    rw [if_neg (by rintro ⟨-, h1⟩; exact htf h1)]
  · simp only [compute_projections]
    rw [if_pos h, if_neg htf]
    simp
  · simp only [compute_projections]
    rw [if_pos h, if_neg htf]
    simp
  · simp only [compute_projections]
    rw [if_pos h]
    simp

/-- C5 (witness): the amended statement at the concrete Q1 sample. -/
theorem C5_witness :
    (compute_projections latestQ1 (199 / 2) none).proj_text = none ∧
    (compute_projections latestQ1 (199 / 2) none).rich_proj_text ≠ none ∧
    (compute_projections latestQ1 (199 / 2) none).ppm_text ≠ none := by
  have h := C5_missing_odds latestQ1 (199 / 2)
  exact ⟨h.1, (h.2.2.2.2.1 (by norm_num [latestQ1])).2,
    h.2.2.2.2.2 (by norm_num [latestQ1])⟩

/-- C6 (counterexample): the code's guard is `Pace > 0 and dk_total`,
not `meanPace > 0`: with meanPace = -1 ≤ 0, pace 100 and total 220 the
metric is computed, `(220 / -1) * 100 = -22000`, not "unavailable" as
the claim requires for meanPace ≤ 0. -/
theorem C6_counterexample :
    ((-1 : ℚ) ≤ 0) ∧
    (compute_projections latestQ1 (-1) (some 220)).implied_eff = some (-22000) ∧
    (compute_projections latestQ1 (-1) (some 220)).implied_eff ≠ none := by
  have h1 : (compute_projections latestQ1 (-1) (some 220)).implied_eff =
      some (-22000) := by
    norm_num [compute_projections, latestQ1, truthy, remaining_sec_of, max_def]
  exact ⟨by norm_num, h1, by rw [h1]; simp⟩

/-- C6 (amended): `impliedEfficiency = (overTotal / meanPace) * 100`
whenever the current pace is > 0 and the odds total is truthy (present
and non-zero), and "N/A" otherwise; the guard never checks meanPace,
so a meanPace ≤ 0 is not rejected (in Python a meanPace of exactly 0
would raise ZeroDivisionError). -/
theorem C6_implied_eff (latest : PaceSample) (season_avg : ℚ)
    (dk_total : Option ℚ) :
    (latest.pace > 0 ∧ truthy dk_total = true →
      (compute_projections latest season_avg dk_total).implied_eff =
        some ((dk_total.getD 0 / season_avg) * 100)) ∧
    (¬ (latest.pace > 0 ∧ truthy dk_total = true) →
      (compute_projections latest season_avg dk_total).implied_eff = none) := by
  constructor
  · intro h
    simp only [compute_projections]
    rw [if_pos h]
  · intro h
    simp only [compute_projections]
    rw [if_neg h]

/-- C6 (witness): both branches at concrete inputs. -/
theorem C6_witness :
    (compute_projections latestQ1 (199 / 2) (some 220)).implied_eff =
      some (((some (220 : ℚ)).getD 0 / (199 / 2)) * 100) ∧
    (compute_projections latestQ1 (199 / 2) none).implied_eff = none :=
  ⟨(C6_implied_eff latestQ1 (199 / 2) (some 220)).1
      ⟨by norm_num [latestQ1], by norm_num [truthy]⟩,
   (C6_implied_eff latestQ1 (199 / 2) none).2
      (by simp [truthy])⟩

/-- C7 (confirmed): appending a sample whose timestamp equals the last
sample's leaves the series unchanged; any other sample is appended at
the end; length is non-decreasing; the old series is a prefix of the
new one (no reordering); and adjacent-timestamp distinctness is
preserved. -/
theorem C7_append (hist : List PaceSample) (s : PaceSample) :
    (∀ l, hist.getLast? = some l → l.time = s.time →
      append_sample hist s = hist) ∧
    ((∀ l, hist.getLast? = some l → l.time ≠ s.time) →
      append_sample hist s = hist ++ [s]) ∧
    hist.length ≤ (append_sample hist s).length ∧
    hist <+: append_sample hist s ∧
    (List.Chain' (fun a b => a.time ≠ b.time) hist →
      List.Chain' (fun a b => a.time ≠ b.time) (append_sample hist s)) := by
  refine ⟨?_, ?_, ?_, ?_, ?_⟩
  · intro l hl heq
    unfold append_sample
    rw [hl]
    exact if_neg (not_not_intro heq)
  · intro hne
    unfold append_sample
    cases hgl : hist.getLast? with
    | none => rfl
    | some l => exact if_pos (hne l hgl)
  · unfold append_sample
    cases hist.getLast? with
    | none => simp
    | some l =>
        dsimp only
        split_ifs <;> simp
  · unfold append_sample
    cases hist.getLast? with
    | none => exact List.prefix_append _ _
    | some l =>
        dsimp only
        split_ifs
        · exact List.prefix_append _ _
        · exact List.prefix_rfl
  · intro hch
    unfold append_sample
    cases hgl : hist.getLast? with
    | none =>
        have h0 : hist = [] := List.getLast?_eq_none_iff.mp hgl
        subst h0
        simp
    | some l =>
        dsimp only
        split_ifs with hne
        · refine List.chain'_append.mpr ⟨hch, List.chain'_singleton _, ?_⟩
          intro x hx y hy
          simp only [Option.mem_def] at hx hy
          rw [hgl] at hx
          have hxl : l = x := Option.some.inj hx
          have hys : s = y := Option.some.inj hy
          rw [← hxl, ← hys]
          exact hne
        · exact hch

/-- C7 (witness): a duplicate-timestamp append is a no-op, a
fresh-timestamp append goes at the end. -/
theorem C7_witness :
    append_sample [latestQ1]
      ⟨"19:12:00", 101, "BOS", "NYK", 32, 30, "Q1 9:40", 7 / 3⟩ = [latestQ1] ∧
    append_sample [latestQ1]
      ⟨"19:12:30", 101, "BOS", "NYK", 32, 30, "Q1 9:40", 7 / 3⟩ =
      [latestQ1, ⟨"19:12:30", 101, "BOS", "NYK", 32, 30, "Q1 9:40", 7 / 3⟩] := by
  constructor
  · exact (C7_append [latestQ1] _).1 latestQ1 rfl rfl
  · refine (C7_append [latestQ1] _).2.1 ?_
    intro l hl
    have hl' : some latestQ1 = some l := hl
    rw [← Option.some.inj hl']
    intro hcontr
    exact absurd hcontr (by decide)

/-- C10 (confirmed): an odds total of 0 is falsy in Python, so the
block treats `{'Over': 0}` exactly like an absent line: the whole
projection record coincides with the no-odds record, and
`paceAdjustedProjection`, `impliedRemainingPoints`, `remainderEdge`
and `impliedEfficiency` are all "N/A". -/
theorem C10_zero_total (latest : PaceSample) (season_avg : ℚ) :
    compute_projections latest season_avg (some 0) =
      compute_projections latest season_avg none ∧
    (compute_projections latest season_avg (some 0)).proj_text = none ∧
    (compute_projections latest season_avg (some 0)).implied_remaining_text = none ∧
    (compute_projections latest season_avg (some 0)).diff_text = none ∧
    (compute_projections latest season_avg (some 0)).implied_eff = none := by
  have ht : truthy (some 0) = false := by simp [truthy]
  have htf : ¬ truthy (some 0) = true := by rw [ht]; exact Bool.false_ne_true
  have htf2 : ¬ truthy none = true := Bool.false_ne_true
  refine ⟨?_, ?_, ?_, ?_, ?_⟩
  · simp only [compute_projections]
    rw [if_neg (show ¬ (truthy (some 0) = true ∧ season_avg > 0) from
          by rintro ⟨h1, -⟩; exact htf h1),
        if_neg (show ¬ (truthy none = true ∧ season_avg > 0) from
          by rintro ⟨h1, -⟩; exact htf2 h1),
        if_neg htf, if_neg htf2,
        if_neg (show ¬ (latest.pace > 0 ∧ truthy (some 0) = true) from
          by rintro ⟨-, h1⟩; exact htf h1),
        if_neg (show ¬ (latest.pace > 0 ∧ truthy none = true) from
          by rintro ⟨-, h1⟩; exact htf2 h1)]
  · simp only [compute_projections]
    rw [if_neg (by rintro ⟨h1, -⟩; exact htf h1)]
  · simp only [compute_projections]
    by_cases he : latest.elapsed * 60 > 60
    · rw [if_pos he, if_neg htf]
    · rw [if_neg he]
  · simp only [compute_projections]
    by_cases he : latest.elapsed * 60 > 60
    · rw [if_pos he, if_neg htf]
    · rw [if_neg he]
  · simp only [compute_projections]
    rw [if_neg (by rintro ⟨-, h1⟩; exact htf h1)]

end NbaPace
